import Mathlib

/-!
Shallow embedding of the Signal-Fire Connect signaling client
(`src/index.ts`): the connection lifecycle state machine, the
reconnection controller and the request/response correlation layer.

Conventions of the embedding:
* JS values produced by `JSON.parse` are modelled by the inductive `JVal`;
  property access `v.k` is `getField v k` (undefined = `none`).
* The mutable fields of the `Connect` class are gathered in the structure
  `St`.  Calls to `dispatchEvent` append to the trace `St.events`; a
  promise resolver of a buffered `request` call actually resuming its
  continuation appends to `St.resumed`; a pending-response resolver being
  invoked appends to `St.responded`; every `setTimeout(handleReconnect,…)`
  registration increments `St.scheduledReconnects`.
* `setTimeout` handles are modelled by two booleans: `reconnectTimeoutSet`
  (the field `this.reconnectTimeout` holds a value, possibly stale) and
  `timerPending` (a registered timer has not fired yet).
-/

namespace SFConnect

/-- JSON values: the result of a successful `JSON.parse` of a text frame. -/
inductive JVal where
  | jnull
  | jbool (b : Bool)
  | jnum (n : Int)
  | jstr (s : String)
  | jobj (fields : List (String × JVal))
  | jarr (elems : List JVal)

/-- First binding of a key among the fields of a JSON object (a value
produced by `JSON.parse` binds every key at most once). -/
def lookupField : List (String × JVal) → String → Option JVal
  | [], _ => none
  | (k, v) :: rest, key => if k = key then some v else lookupField rest key

/-- JS property access `v.k`: defined on objects, `undefined` (= `none`)
on every other value; the embedding is only applied to non-`null`
receivers. -/
def getField (v : JVal) (k : String) : Option JVal :=
  match v with
  | .jobj fields => lookupField fields k
  | _ => none

/-- JS falsiness of a possibly-absent value, as tested by `if (!x)`. -/
def falsyOpt : Option JVal → Bool
  | none => true
  | some .jnull => true
  | some (.jbool false) => true
  | some (.jnum 0) => true
  | some (.jstr "") => true
  | _ => false

/-- JS `String(…)` coercion, used for the event name of the generic
dispatch branch (only ever reached with a truthy `cmd`). -/
def jsStringOf : JVal → String
  | .jnull => "null"
  | .jbool true => "true"
  | .jbool false => "false"
  | .jnum n => toString n
  | .jstr s => s
  | .jobj _ => "[object Object]"
  | .jarr _ => ""

/-- JS object destructuring `const { x } = e` throws a TypeError exactly
when `e` is `null` or `undefined`; the `undefined` case is handled at the
call site (`getField … = none`). -/
def destructurable : JVal → Bool
  | .jnull => false
  | _ => true

/-- The `ConnectionState` string union of `src/index.ts`. -/
inductive ConnState where
  | new
  | connecting
  | connected
  | reconnecting
  | closing
  | closed
deriving DecidableEq, Repr

/-- Events dispatched on the client (`dispatchEvent` calls). -/
inductive Ev where
  | state (s : ConnState)
  | connectionStateChange
  | error (msg : String)
  | description (origin : String) (payload : Option JVal)
  | icecandidate (origin : String) (payload : Option JVal)
  | generic (name : String) (payload : JVal)

/-- The immutable configuration fixed by the constructor
(`reconnectInterval` plays no role in the control flow we verify and the
`urlTransform` collaborator is modelled at its call sites). -/
structure Cfg where
  reconnectOnClose : Bool
  reconnectOnError : Bool
  reconnectInterval : Nat
  reconnectAttempts : Nat

/-- Defaults of `defaultInit` in `src/index.ts`. -/
def defaultCfg : Cfg :=
  { reconnectOnClose := false
    reconnectOnError := true
    reconnectInterval := 2500
    reconnectAttempts := 5 }

/-- One entry of the `pendingRequests : Set<() => void>` collection: a
promise resolver registered by a `request()` call that found the client
not connected.  `wid` models the identity of the resolver closure and
`settled` whether its promise has already been resolved (resolving a
settled promise is a no-op per JS promise semantics). -/
structure Waiter where
  wid : Nat
  settled : Bool
deriving DecidableEq, Repr

/-- The mutable state of a `Connect` instance, together with the
observable traces described in the file header. -/
structure St where
  cfg : Cfg
  connectionState : ConnState
  socket : Bool
  hadError : Bool
  reconnectAttemptsMade : Nat
  reconnectTimeoutSet : Bool
  timerPending : Bool
  scheduledReconnects : Nat
  pendingRequests : List Waiter
  pendingResponses : List (String × Nat)
  clientId : Option JVal
  configuration : JVal
  previousUrl : Option String
  events : List Ev
  resumed : List Nat
  responded : List (String × JVal)

/-- A fresh client, as produced by the constructor. -/
def initSt (cfg : Cfg) : St :=
  { cfg := cfg
    connectionState := .new
    socket := false
    hadError := false
    reconnectAttemptsMade := 0
    reconnectTimeoutSet := false
    timerPending := false
    scheduledReconnects := 0
    pendingRequests := []
    pendingResponses := []
    clientId := none
    configuration := .jobj []
    previousUrl := none
    events := []
    resumed := []
    responded := [] }

/-- Append one dispatched event to the trace. -/
def emit (st : St) (e : Ev) : St :=
  { st with events := st.events ++ [e] }

/-- The loop `for (const resolve of this.pendingRequests) resolve()` of
`setConnectionState`, iterating the `Set` in insertion order.  Invoking a
resolver whose promise is already settled does nothing; invoking a fresh
one settles it and resumes the suspended `request()` call (recorded in
the second component, in invocation order).  The `Set` itself is never
cleared by the source, so every entry is kept. -/
def releaseAll : List Waiter → List Waiter × List Nat
  | [] => ([], [])
  | w :: ws =>
      let p := releaseAll ws
      if w.settled then (w :: p.1, p.2)
      else ({ w with settled := true } :: p.1, w.wid :: p.2)

/-- `setConnectionState` (src/index.ts:415-432): a same-state transition
returns before doing anything; otherwise the state is assigned, an event
named after the new state and a `connectionstatechange` event are
dispatched, and on entering `connected` with a non-empty waiter set every
buffered resolver is invoked.  The second component returns the events
dispatched by this call. -/
def setConnectionState (st : St) (s : ConnState) : St × List Ev :=
  if st.connectionState = s then (st, [])
  else
    let st1 : St :=
      { st with connectionState := s
                events := st.events ++ [Ev.state s, Ev.connectionStateChange] }
    if s = ConnState.connected ∧ st1.pendingRequests ≠ [] then
      let p := releaseAll st1.pendingRequests
      ({ st1 with pendingRequests := p.1, resumed := st1.resumed ++ p.2 },
       [Ev.state s, Ev.connectionStateChange])
    else (st1, [Ev.state s, Ev.connectionStateChange])

/-- First half of `request()` (src/index.ts:267-274), up to the `await`:
when the client is not `connected` the call suspends by adding its
resolver (identified by the fresh token `w`) to the waiter set; when it
is connected the body proceeds synchronously and no waiter is
registered. -/
def requestEnqueue (st : St) (w : Nat) : St :=
  if st.connectionState = ConnState.connected then st
  else { st with pendingRequests := st.pendingRequests ++ [⟨w, false⟩] }

/-- Second half of `request()` (src/index.ts:276-280), after resumption:
the request id (supplied or freshly generated) is mapped to the response
resolver token `tok` in `pendingResponses`, and the serialized request is
written to the socket if one exists (`Map.set` replaces in place when the
key is present). -/
def mapSet : List (String × Nat) → String → Nat → List (String × Nat)
  | [], k, v => [(k, v)]
  | (k', v') :: rest, k, v =>
      if k' = k then (k, v) :: rest else (k', v') :: mapSet rest k v

/-- `Map.get` on an insertion-ordered association list with unique keys. -/
def mapGet : List (String × Nat) → String → Option Nat
  | [], _ => none
  | (k', v) :: rest, k => if k' = k then some v else mapGet rest k

/-- `Map.delete`: removes the (unique) binding of the key. -/
def mapDelete (m : List (String × Nat)) (k : String) : List (String × Nat) :=
  m.filter (fun p => ¬ p.1 = k)

/-- Registration step of the second half of `request()`. -/
def requestSend (st : St) (id : String) (tok : Nat) : St :=
  { st with pendingResponses := mapSet st.pendingResponses id tok }

/-- `handleErrorEvent` (src/index.ts:297-299): a transport error
notification only records the "had error" flag. -/
def handleErrorEvent (st : St) : St :=
  { st with hadError := true }

/-- `handleCloseEvent` (src/index.ts:364-380): returns early when no
socket is owned; otherwise drops the steady-state listeners, releases
the socket and, exactly when `reconnectOnClose` holds or the session had
a transport error and `reconnectOnError` holds, registers a
`setTimeout(handleReconnect, reconnectInterval)` timer in the
`reconnectTimeout` field.  Note: it does not change `connectionState`,
does not clear `hadError` and does not consult whether the closure was
requested by `close()`. -/
def handleCloseEvent (st : St) : St :=
  if st.socket = false then st
  else
    let st1 : St := { st with socket := false }
    if st1.cfg.reconnectOnClose || (st1.hadError && st1.cfg.reconnectOnError) then
      { st1 with reconnectTimeoutSet := true
                 timerPending := true
                 scheduledReconnects := st1.scheduledReconnects + 1 }
    else st1

/-- Synchronous outcome of a `connect(url)` call. -/
inductive ConnectOutcome where
  | errInvalidState (s : ConnState)
  | errSocketExists
  | opened
deriving DecidableEq, Repr

/-- Guard and synchronous prefix of `connect` (src/index.ts:100-114): an
invalid-state error unless the state is `new`, `closed` or
`reconnecting`; then an already-connected error if a socket handle
exists; otherwise any pending reconnect timer is cancelled, the state
becomes `connecting` and the connection promise is created. -/
def connectStart (st : St) : St × ConnectOutcome :=
  if ¬ (st.connectionState = ConnState.new ∨
        st.connectionState = ConnState.closed ∨
        st.connectionState = ConnState.reconnecting) then
    (st, .errInvalidState st.connectionState)
  else if st.socket then
    (st, .errSocketExists)
  else
    let st1 : St :=
      if st.reconnectTimeoutSet then
        { st with reconnectTimeoutSet := false, timerPending := false }
      else st
    ((setConnectionState st1 ConnState.connecting).1, .opened)

/-- An inbound transport frame, as seen by a message listener: a
non-textual payload, a textual payload that `JSON.parse` rejects, or the
parsed JSON value. -/
inductive Inbound where
  | nonText
  | unparsable
  | parsed (v : JVal)

/-- Outcome of the handshake message listener for the `connect` promise. -/
inductive HandshakeResult where
  | rejected (closeCode : Nat) (msg : String)
  | threw
  | resolved
deriving DecidableEq, Repr

/-- `handleOpen` (src/index.ts:283-295): adopts the socket, records the
negotiated identity and configuration (`configuration ?? {}`), installs
the steady-state listeners and transitions to `connected`. -/
def handleOpen (st : St) (id : Option JVal) (config : Option JVal) : St :=
  let st1 : St :=
    { st with socket := true
              clientId := id
              configuration := config.getD (.jobj []) }
  (setConnectionState st1 ConnState.connected).1

/-- The handshake listener `handleMessage` of `connect`
(src/index.ts:133-169).  A non-string payload, an unparsable payload or
a command other than `"welcome"` closes the socket with code 1003 and
rejects the promise after moving to `closed`.  Otherwise
`const { id, configuration } = message.data` destructures the payload —
throwing a TypeError when `data` is absent or `null` — and the handshake
completes with whatever `data.id` holds (the source never validates the
identity), storing the dialed url, resetting the reconnect counter and
clearing the error flag before `handleOpen`. -/
def handleMessage (st : St) (url : String) (inb : Inbound) : St × HandshakeResult :=
  match inb with
  | .nonText =>
      ((setConnectionState st ConnState.closed).1,
       .rejected 1003 "expected a string")
  | .unparsable =>
      ((setConnectionState st ConnState.closed).1,
       .rejected 1003 "unable to parse message")
  | .parsed v =>
      match getField v "cmd" with
      | some (.jstr "welcome") =>
          match getField v "data" with
          | none => (st, .threw)
          | some d =>
              if destructurable d then
                let st1 : St :=
                  { st with previousUrl := some url
                            reconnectAttemptsMade := 0
                            hadError := false }
                (handleOpen st1 (getField d "id") (getField d "configuration"),
                 .resolved)
              else (st, .threw)
      | _ =>
          ((setConnectionState st ConnState.closed).1,
           .rejected 1003 "expected welcome message")

/-- `typeof message.ok === "boolean"` — the response discriminator. -/
def isServerResponseJ (v : JVal) : Bool :=
  match getField v "ok" with
  | some (.jbool _) => true
  | _ => false

/-- `typeof message.origin === "string"` — the inbound-request
discriminator. -/
def isIncomingRequestJ (v : JVal) : Bool :=
  match getField v "origin" with
  | some (.jstr _) => true
  | _ => false

/-- The `message.origin` string of an inbound request (only evaluated
when `isIncomingRequestJ` holds). -/
def originOf (v : JVal) : String :=
  match getField v "origin" with
  | some (.jstr s) => s
  | _ => ""

/-- Command dispatch of the steady-state listener for inbound requests
(the `switch` of src/index.ts:339-360). -/
def dispatchIncoming (st : St) (v : JVal) : St :=
  if falsyOpt (getField v "cmd") then
    emit st (.error "expected cmd to be specified")
  else
    match getField v "cmd" with
    | some (.jstr "offer") =>
        emit st (.description (originOf v)
          ((getField v "data").bind (fun d => getField d "offer")))
    | some (.jstr "answer") =>
        emit st (.description (originOf v)
          ((getField v "data").bind (fun d => getField d "answer")))
    | some (.jstr "ice") =>
        emit st (.icecandidate (originOf v)
          ((getField v "data").bind (fun d => getField d "candidate")))
    | some (.jstr c) => emit st (.generic c v)
    | some other => emit st (.generic (jsStringOf other) v)
    | none => st

/-- The steady-state message listener `handleMessageEvent`
(src/index.ts:301-362).  Non-text and unparsable frames raise a
non-fatal error event.  A parsed object carrying a boolean `ok` is a
response: its id is looked up in `pendingResponses`; when found the
entry is deleted and its resolver invoked with the message; otherwise
nothing happens.  Else an object carrying a string `origin` is an
inbound request and is dispatched by command; everything else is
ignored. -/
def handleMessageEvent (st : St) (inb : Inbound) : St :=
  match inb with
  | .nonText => emit st (.error "expected a string")
  | .unparsable => emit st (.error "unable to parse message")
  | .parsed v =>
      if isServerResponseJ v then
        match getField v "id" with
        | some (.jstr i) =>
            match mapGet st.pendingResponses i with
            | some _ =>
                { st with pendingResponses := mapDelete st.pendingResponses i
                          responded := st.responded ++ [(i, v)] }
            | none => st
        | _ => st
      else if isIncomingRequestJ v then
        dispatchIncoming st v
      else st

/-- A server response as consumed by `sendDescription` and
`sendICECandidate`: the `ok` flag and the optional `data` payload whose
only read field is `message`. -/
structure RespData where
  message : String
deriving DecidableEq, Repr

structure ServerResponse where
  id : String
  ok : Bool
  data : Option RespData
deriving DecidableEq, Repr

/-- Outcome of a convenience send operation. -/
inductive SendOutcome where
  | unsupportedType (t : String)
  | rejectedWith (msg : String)
  | okDone
deriving DecidableEq, Repr

def isRejected : SendOutcome → Bool
  | .rejectedWith _ => true
  | _ => false

/-- `sendDescription` (src/index.ts:228-244) given the response its
`request` eventually resolves with: a description type other than
`offer`/`answer` fails before any network activity; afterwards
`if (!response.ok && response.data) throw new Error(response.data.message)`. -/
def sendDescriptionOutcome (descType : String) (resp : ServerResponse) : SendOutcome :=
  if ¬ (descType = "offer" ∨ descType = "answer") then
    .unsupportedType descType
  else if resp.ok = false then
    match resp.data with
    | some d => .rejectedWith d.message
    | none => .okDone
  else .okDone

/-- `sendICECandidate` (src/index.ts:251-261) given the resolved
response: same rejection test, with no type guard. -/
def sendICECandidateOutcome (resp : ServerResponse) : SendOutcome :=
  if resp.ok = false then
    match resp.data with
    | some d => .rejectedWith d.message
    | none => .okDone
  else .okDone

/-- The body of a JS arrow function consisting of a single expression:
either a bare reference to a name (which evaluates the reference and
performs no call) or a nullary invocation of the name. -/
inductive JSBody where
  | ref (name : String)
  | call0 (name : String)
deriving DecidableEq, Repr

/-- The names a body invokes when the callback runs. -/
def invokes : JSBody → List String
  | .ref _ => []
  | .call0 f => [f]

/-- The close listener registered by `close()`
(src/index.ts:200): `() => resolve` — an arrow function whose body is
the bare identifier `resolve`. -/
def closeListenerBody : JSBody := .ref "resolve"

/-- Running the once-listener over the settled flag of the promise
returned by `close()`: the promise settles exactly if the body invokes
`resolve`. -/
def runCloseListener (b : JSBody) (settled : Bool) : Bool :=
  settled || (invokes b).contains "resolve"

/-- What `close()` returns: an immediately resolved promise, or a
pending promise whose only chance to settle is the registered
once-listener. -/
inductive CloseOutcome where
  | immediateResolve
  | pendingWith (body : JSBody)
deriving DecidableEq, Repr

/-- `close(code?, reason?)` (src/index.ts:194-203): with no socket it
resolves immediately; otherwise it registers the once-listener on the
socket close event and calls `socket.close(code, reason)`.  It mutates
no field of the client — in particular it never sets `connectionState`
to `closing` and records nowhere that the closure was requested. -/
def closeCall (st : St) : St × CloseOutcome :=
  if st.socket = false then (st, .immediateResolve)
  else (st, .pendingWith closeListenerBody)

/-- A connection attempt issued by `handleReconnect` that fails at the
transport or handshake level: the guard of `connect` passes (state
`reconnecting`, no socket), the pending timer is cleared, the state
passes through `connecting`, and every rejection path of the connect
promise (error, early close, protocol violation) puts the client in
`closed` before rejecting. -/
def connectFail (st : St) : St :=
  let p := connectStart st
  match p.2 with
  | .opened => (setConnectionState p.1 ConnState.closed).1
  | _ => p.1

/-- `handleReconnect` (src/index.ts:382-413) on an attempt whose
`connect` fails (the default identity `urlTransform` succeeds): the
state moves to `reconnecting`, the attempt runs and fails, the catch
sets `closed` (a no-op when the rejection path already did) and bumps
the counter; when the counter now exceeds `reconnectAttempts` a single
`"exceeded maximum reconnect attempts"` error event is dispatched and
nothing further is scheduled, otherwise a new timer is registered. -/
def handleReconnectFail (st : St) : St :=
  let st1 := (setConnectionState st ConnState.reconnecting).1
  let st2 := connectFail st1
  let st3 := (setConnectionState st2 ConnState.closed).1
  let st4 : St := { st3 with reconnectAttemptsMade := st3.reconnectAttemptsMade + 1 }
  if st4.cfg.reconnectAttempts < st4.reconnectAttemptsMade then
    emit st4 (.error "exceeded maximum reconnect attempts")
  else
    { st4 with reconnectTimeoutSet := true
               timerPending := true
               scheduledReconnects := st4.scheduledReconnects + 1 }

/-- A pending reconnect timer fires: the timer is consumed and
`handleReconnect` runs (here: with a failing connection attempt). -/
def reconnectTimerFire (st : St) : St :=
  handleReconnectFail { st with timerPending := false }

/-- `n` consecutive firings of the reconnect timer, every attempt
failing. -/
def failRun (st : St) : Nat → St
  | 0 => st
  | n + 1 => reconnectTimerFire (failRun st n)

/-- Whether an event is the reconnect-exhaustion error. -/
def isExhaustErr : Ev → Bool
  | .error "exceeded maximum reconnect attempts" => true
  | _ => false

/-- Number of reconnect-exhaustion error events dispatched so far. -/
def exhaustCount (st : St) : Nat :=
  st.events.countP isExhaustErr

/-! ### Helper lemmas -/

theorem isExhaustErr_state (s : ConnState) : isExhaustErr (Ev.state s) = false := rfl

theorem isExhaustErr_change : isExhaustErr Ev.connectionStateChange = false := rfl

theorem isExhaustErr_exhaust :
    isExhaustErr (Ev.error "exceeded maximum reconnect attempts") = true := rfl

@[simp] theorem scs_connectionState (st : St) (s : ConnState) :
    (setConnectionState st s).1.connectionState = s := by
  unfold setConnectionState
  by_cases h : st.connectionState = s
  · simp [h]
  · simp only [if_neg h]
    split <;> rfl

@[simp] theorem scs_socket (st : St) (s : ConnState) :
    (setConnectionState st s).1.socket = st.socket := by
  unfold setConnectionState
  by_cases h : st.connectionState = s
  · simp [h]
  · simp only [if_neg h]
    split <;> rfl

@[simp] theorem scs_hadError (st : St) (s : ConnState) :
    (setConnectionState st s).1.hadError = st.hadError := by
  unfold setConnectionState
  by_cases h : st.connectionState = s
  · simp [h]
  · simp only [if_neg h]
    split <;> rfl

@[simp] theorem scs_attemptsMade (st : St) (s : ConnState) :
    (setConnectionState st s).1.reconnectAttemptsMade = st.reconnectAttemptsMade := by
  unfold setConnectionState
  by_cases h : st.connectionState = s
  · simp [h]
  · simp only [if_neg h]
    split <;> rfl

@[simp] theorem scs_timeoutSet (st : St) (s : ConnState) :
    (setConnectionState st s).1.reconnectTimeoutSet = st.reconnectTimeoutSet := by
  unfold setConnectionState
  by_cases h : st.connectionState = s
  · simp [h]
  · simp only [if_neg h]
    split <;> rfl

@[simp] theorem scs_timerPending (st : St) (s : ConnState) :
    (setConnectionState st s).1.timerPending = st.timerPending := by
  unfold setConnectionState
  by_cases h : st.connectionState = s
  · simp [h]
  · simp only [if_neg h]
    split <;> rfl

@[simp] theorem scs_scheduled (st : St) (s : ConnState) :
    (setConnectionState st s).1.scheduledReconnects = st.scheduledReconnects := by
  unfold setConnectionState
  by_cases h : st.connectionState = s
  · simp [h]
  · simp only [if_neg h]
    split <;> rfl

@[simp] theorem scs_cfg (st : St) (s : ConnState) :
    (setConnectionState st s).1.cfg = st.cfg := by
  unfold setConnectionState
  by_cases h : st.connectionState = s
  · simp [h]
  · simp only [if_neg h]
    split <;> rfl

@[simp] theorem scs_clientId (st : St) (s : ConnState) :
    (setConnectionState st s).1.clientId = st.clientId := by
  unfold setConnectionState
  by_cases h : st.connectionState = s
  · simp [h]
  · simp only [if_neg h]
    split <;> rfl

@[simp] theorem scs_pendingResponses (st : St) (s : ConnState) :
    (setConnectionState st s).1.pendingResponses = st.pendingResponses := by
  unfold setConnectionState
  by_cases h : st.connectionState = s
  · simp [h]
  · simp only [if_neg h]
    split <;> rfl

@[simp] theorem scs_events_countP (st : St) (s : ConnState) :
    ((setConnectionState st s).1.events).countP isExhaustErr
      = st.events.countP isExhaustErr := by
  unfold setConnectionState
  by_cases h : st.connectionState = s
  · simp [h]
  · simp only [if_neg h]
    split <;>
      simp [List.countP_append, List.countP_cons,
        isExhaustErr_state, isExhaustErr_change]

@[simp] theorem scs_exhaustCount (st : St) (s : ConnState) :
    exhaustCount (setConnectionState st s).1 = exhaustCount st := by
  unfold setConnectionState
  by_cases h : st.connectionState = s
  · simp [h]
  · simp only [if_neg h]
    split <;>
      simp [exhaustCount, List.countP_append, List.countP_cons,
        isExhaustErr_state, isExhaustErr_change]

theorem releaseAll_resumed (ws : List Waiter) :
    (releaseAll ws).2 = (ws.filter (fun w => !w.settled)).map Waiter.wid := by
  induction ws with
  | nil => rfl
  | cons w ws ih =>
      unfold releaseAll
      cases hw : w.settled <;> simp [hw, ih]

theorem releaseAll_settled (ws : List Waiter) :
    ∀ w ∈ (releaseAll ws).1, w.settled = true := by
  induction ws with
  | nil => intro w hw; simp [releaseAll] at hw
  | cons w ws ih =>
      intro x hx
      unfold releaseAll at hx
      cases hw : w.settled <;> simp [hw] at hx <;>
        rcases hx with hx | hx
      · exact hx ▸ rfl
      · exact ih x hx
      · exact hx ▸ hw
      · exact ih x hx

theorem releaseAll_of_all_settled (ws : List Waiter)
    (h : ∀ w ∈ ws, w.settled = true) : releaseAll ws = (ws, []) := by
  induction ws with
  | nil => rfl
  | cons w ws ih =>
      unfold releaseAll
      rw [ih (fun x hx => h x (List.mem_cons_of_mem w hx))]
      simp [h w (List.mem_cons_self w ws)]

theorem mapGet_mapDelete (m : List (String × Nat)) (i : String) :
    mapGet (mapDelete m i) i = none := by
  induction m with
  | nil => rfl
  | cons p rest ih =>
      obtain ⟨k, v⟩ := p
      unfold mapDelete
      by_cases h : k = i <;> simp [h, mapGet, ih] <;>
        simpa [mapDelete] using ih

/-! ### Claims -/

/-- C9: transitioning to the state already held changes nothing and emits no
notification, while every transition to a different state emits exactly two
notifications: one event named after the new state and one generic
`connectionstatechange` event. -/
theorem state_transition_events (st : St) (s : ConnState) :
    (st.connectionState = s → setConnectionState st s = (st, [])) ∧
    (st.connectionState ≠ s →
      (setConnectionState st s).2 = [Ev.state s, Ev.connectionStateChange] ∧
      (setConnectionState st s).1.connectionState = s ∧
      (setConnectionState st s).1.events
        = st.events ++ [Ev.state s, Ev.connectionStateChange]) := by
  constructor
  · intro h
    simp [setConnectionState, h]
  · intro h
    refine ⟨?_, scs_connectionState st s, ?_⟩ <;>
      · unfold setConnectionState
        simp only [if_neg h]
        split <;> rfl

/-- Witness for C9 at concrete inputs: a same-state transition on a fresh
client is a complete no-op, and the transition `new → connecting` emits
exactly the two events. -/
theorem state_transition_events_witness :
    setConnectionState (initSt defaultCfg) ConnState.new = (initSt defaultCfg, []) ∧
    (setConnectionState (initSt defaultCfg) ConnState.connecting).2
      = [Ev.state ConnState.connecting, Ev.connectionStateChange] :=
  ⟨(state_transition_events (initSt defaultCfg) ConnState.new).1 rfl,
   ((state_transition_events (initSt defaultCfg) ConnState.connecting).2
      (by decide)).1⟩

/-- C3: every waiter registered by a `request()` call made while not
`connected` is appended to the ordered collection; the first subsequent
transition to `connected` resumes exactly the not-yet-settled waiters, in
registration (FIFO) order, and leaves every waiter settled; a later
transition to `connected` (all waiters settled) resumes nobody again. -/
theorem waiters_fifo_release_once (st st2 : St) (w : Nat) :
    (st.connectionState ≠ ConnState.connected →
      (requestEnqueue st w).pendingRequests
        = st.pendingRequests ++ [⟨w, false⟩]) ∧
    (st.connectionState ≠ ConnState.connected →
      (setConnectionState st ConnState.connected).1.resumed
        = st.resumed
            ++ (st.pendingRequests.filter (fun x => !x.settled)).map Waiter.wid ∧
      ∀ x ∈ (setConnectionState st ConnState.connected).1.pendingRequests,
        x.settled = true) ∧
    ((∀ x ∈ st2.pendingRequests, x.settled = true) →
      (setConnectionState st2 ConnState.connected).1.resumed = st2.resumed) := by
  refine ⟨fun h => by simp [requestEnqueue, h], fun h => ?_, fun h => ?_⟩
  · unfold setConnectionState
    simp only [if_neg h]
    by_cases hp : st.pendingRequests = []
    · simp [hp]
    · simp only [hp, ne_eq, not_false_eq_true, and_true, if_pos rfl]
      constructor
      · simp [releaseAll_resumed]
      · intro x hx
        exact releaseAll_settled st.pendingRequests x hx
  · by_cases hc : st2.connectionState = ConnState.connected
    · simp [setConnectionState, hc]
    · unfold setConnectionState
      simp only [if_neg hc]
      by_cases hp : st2.pendingRequests = []
      · simp [hp]
      · simp only [hp, ne_eq, not_false_eq_true, and_true, if_pos rfl]
        simp [releaseAll_of_all_settled st2.pendingRequests h]

/-- Concrete waiter sets for the C3 witness. -/
def stW : St :=
  { initSt defaultCfg with
      connectionState := ConnState.connecting
      pendingRequests := [⟨1, false⟩, ⟨2, false⟩] }

def stW2 : St :=
  { initSt defaultCfg with
      connectionState := ConnState.closed
      pendingRequests := [⟨1, true⟩, ⟨2, true⟩] }

/-- Witness for C3: two buffered waiters are resumed in FIFO order on the
transition to `connected`, and a state whose waiters are all settled resumes
nobody on a later transition to `connected`. -/
theorem waiters_fifo_release_once_witness :
    (requestEnqueue stW 3).pendingRequests
      = stW.pendingRequests ++ [⟨3, false⟩] ∧
    ((setConnectionState stW ConnState.connected).1.resumed
      = stW.resumed
          ++ (stW.pendingRequests.filter (fun x => !x.settled)).map Waiter.wid ∧
     ∀ x ∈ (setConnectionState stW ConnState.connected).1.pendingRequests,
       x.settled = true) ∧
    (setConnectionState stW2 ConnState.connected).1.resumed = stW2.resumed := by
  obtain ⟨h1, h2, h3⟩ := waiters_fifo_release_once stW stW2 3
  exact ⟨h1 (by decide), h2 (by decide), h3 (by decide)⟩

/-- C4: for every steady-state frame parsing to an object with a boolean
`ok` field, if its `id` is a key of the pending-response map the entry is
removed and its resolver invoked exactly once with the response (a repeat
delivery of the same frame finds no entry and changes nothing); if the id is
not a key the frame is discarded and the client state is unchanged. -/
theorem response_correlation (st : St) (v : JVal) (b : Bool)
    (hok : getField v "ok" = some (.jbool b)) :
    (∀ i tok, getField v "id" = some (.jstr i) →
      mapGet st.pendingResponses i = some tok →
      handleMessageEvent st (.parsed v)
        = { st with pendingResponses := mapDelete st.pendingResponses i
                    responded := st.responded ++ [(i, v)] } ∧
      handleMessageEvent (handleMessageEvent st (.parsed v)) (.parsed v)
        = handleMessageEvent st (.parsed v)) ∧
    ((∀ i, getField v "id" = some (.jstr i) →
        mapGet st.pendingResponses i = none) →
      handleMessageEvent st (.parsed v) = st) := by
  have hsr : isServerResponseJ v = true := by
    unfold isServerResponseJ
    rw [hok]
  constructor
  · intro i tok hid hget
    constructor
    · simp [handleMessageEvent, hsr, hid, hget]
    · simp [handleMessageEvent, hsr, hid, hget, mapGet_mapDelete]
  · intro hnone
    cases hid : getField v "id" with
    | none => simp [handleMessageEvent, hsr, hid]
    | some jv =>
        cases jv with
        | jstr i => simp [handleMessageEvent, hsr, hid, hnone i hid]
        | jnull => simp [handleMessageEvent, hsr, hid]
        | jbool b' => simp [handleMessageEvent, hsr, hid]
        | jnum n => simp [handleMessageEvent, hsr, hid]
        | jobj fs => simp [handleMessageEvent, hsr, hid]
        | jarr es => simp [handleMessageEvent, hsr, hid]

/-- Concrete states and response frame for the C4 witness. -/
def vResp : JVal := .jobj [("ok", .jbool true), ("id", .jstr "a")]

def stResp : St :=
  { initSt defaultCfg with
      connectionState := ConnState.connected
      socket := true
      pendingResponses := [("a", 7)] }

def stUnmatched : St :=
  { initSt defaultCfg with
      connectionState := ConnState.connected
      socket := true }

/-- Witness for C4: a matched response removes its map entry and invokes
its resolver once; the same frame against an empty map changes nothing. -/
theorem response_correlation_witness :
    (handleMessageEvent stResp (.parsed vResp)
      = { stResp with pendingResponses := mapDelete stResp.pendingResponses "a"
                      responded := stResp.responded ++ [("a", vResp)] } ∧
     handleMessageEvent (handleMessageEvent stResp (.parsed vResp)) (.parsed vResp)
      = handleMessageEvent stResp (.parsed vResp)) ∧
    handleMessageEvent stUnmatched (.parsed vResp) = stUnmatched := by
  refine ⟨(response_correlation stResp vResp true rfl).1 "a" 7 rfl rfl, ?_⟩
  exact (response_correlation stUnmatched vResp true rfl).2 (fun i _ => rfl)

/-- C7: on every transport closure that reaches the close handler with a
live socket, a reconnection attempt is scheduled if and only if
`reconnectOnClose` is true, or the session observed a transport error (the
flag set by `handleErrorEvent`) and `reconnectOnError` is true. -/
theorem close_policy_iff (st : St) (hs : st.socket = true) :
    (handleCloseEvent st).scheduledReconnects
      = (if st.cfg.reconnectOnClose || (st.hadError && st.cfg.reconnectOnError)
         then st.scheduledReconnects + 1 else st.scheduledReconnects) ∧
    ((handleCloseEvent st).scheduledReconnects ≠ st.scheduledReconnects
      ↔ (st.cfg.reconnectOnClose = true ∨
         (st.hadError = true ∧ st.cfg.reconnectOnError = true))) ∧
    (handleCloseEvent st).socket = false ∧
    (handleErrorEvent st).hadError = true := by
  unfold handleCloseEvent handleErrorEvent
  cases hrc : st.cfg.reconnectOnClose <;>
    cases hhe : st.hadError <;>
      cases hre : st.cfg.reconnectOnError <;>
        simp [hs, hrc, hhe, hre]

/-- Concrete state for the C7 witness: no error seen, `reconnectOnClose`
false but `reconnectOnError` true, so no reconnection is scheduled. -/
def stC7 : St :=
  { initSt defaultCfg with
      connectionState := ConnState.connected
      socket := true }

/-- Witness for C7: with the default policy and no observed transport
error, the close handler schedules nothing, and scheduling happens exactly
under the policy disjunction. -/
theorem close_policy_iff_witness :
    (handleCloseEvent stC7).scheduledReconnects
      = (if stC7.cfg.reconnectOnClose
            || (stC7.hadError && stC7.cfg.reconnectOnError)
         then stC7.scheduledReconnects + 1 else stC7.scheduledReconnects) ∧
    ((handleCloseEvent stC7).scheduledReconnects ≠ stC7.scheduledReconnects
      ↔ (stC7.cfg.reconnectOnClose = true ∨
         (stC7.hadError = true ∧ stC7.cfg.reconnectOnError = true))) ∧
    (handleCloseEvent stC7).socket = false ∧
    (handleErrorEvent stC7).hadError = true :=
  close_policy_iff stC7 rfl

/-- Field behaviour of one firing of the reconnect timer with a failing
connection attempt.  The guard of `connect` always passes here: the state
was just set to `reconnecting` and no socket exists. -/
theorem fire_proj (st : St) (hs : st.socket = false) :
    (reconnectTimerFire st).connectionState = ConnState.closed ∧
    (reconnectTimerFire st).socket = false ∧
    (reconnectTimerFire st).cfg = st.cfg ∧
    (reconnectTimerFire st).reconnectAttemptsMade = st.reconnectAttemptsMade + 1 ∧
    (st.cfg.reconnectAttempts < st.reconnectAttemptsMade + 1 →
      exhaustCount (reconnectTimerFire st) = exhaustCount st + 1 ∧
      (reconnectTimerFire st).timerPending = false ∧
      (reconnectTimerFire st).scheduledReconnects = st.scheduledReconnects) ∧
    (¬ st.cfg.reconnectAttempts < st.reconnectAttemptsMade + 1 →
      exhaustCount (reconnectTimerFire st) = exhaustCount st ∧
      (reconnectTimerFire st).timerPending = true ∧
      (reconnectTimerFire st).scheduledReconnects = st.scheduledReconnects + 1) := by
  have hconn :
      ∀ st1 : St, st1.connectionState = ConnState.reconnecting →
        st1.socket = false →
        connectFail st1 = (setConnectionState
          ((setConnectionState
            (if st1.reconnectTimeoutSet then
              { st1 with reconnectTimeoutSet := false, timerPending := false }
             else st1) ConnState.connecting).1) ConnState.closed).1 := by
    intro st1 h1 h2
    unfold connectFail connectStart
    simp [h1, h2]
  simp only [reconnectTimerFire, handleReconnectFail]
  rw [hconn ((setConnectionState { st with timerPending := false }
      ConnState.reconnecting).1) (by simp) (by simp [hs])]
  by_cases ht : st.reconnectTimeoutSet <;>
    by_cases hx : st.cfg.reconnectAttempts < st.reconnectAttemptsMade + 1 <;>
    simp [ht, hx, hs, emit, exhaustCount, List.countP_append, List.countP_cons,
      isExhaustErr_exhaust]

/-- Invariant of a run of consecutive failed reconnection attempts that has
not yet exhausted the budget. -/
theorem failRun_inv (st0 : St) (hs : st0.socket = false)
    (hc : st0.reconnectAttemptsMade = 0) :
    ∀ n, n ≤ st0.cfg.reconnectAttempts →
      (failRun st0 n).socket = false ∧
      (failRun st0 n).cfg = st0.cfg ∧
      (failRun st0 n).reconnectAttemptsMade = n ∧
      exhaustCount (failRun st0 n) = exhaustCount st0 ∧
      (failRun st0 n).scheduledReconnects = st0.scheduledReconnects + n := by
  intro n
  induction n with
  | zero => intro _; simp [failRun, hs, hc]
  | succ k ih =>
      intro hk
      obtain ⟨i1, i2, i3, i4, i5⟩ := ih (Nat.le_of_succ_le hk)
      obtain ⟨f1, f2, f3, f4, f5, f6⟩ := fire_proj (failRun st0 k) i1
      have hnx : ¬ (failRun st0 k).cfg.reconnectAttempts
          < (failRun st0 k).reconnectAttemptsMade + 1 := by
        rw [i2, i3]
        omega
      obtain ⟨g1, g2, g3⟩ := f6 hnx
      refine ⟨?_, ?_, ?_, ?_, ?_⟩
      · simpa [failRun] using f2
      · simpa [failRun, i2] using f3
      · simpa [failRun, i3] using f4
      · simpa [failRun, i4] using g1
      · simp only [failRun]
        rw [g3, i5]
        omega

/-- C1: after exactly `reconnectAttempts + 1` consecutive failed
reconnection attempts (counter starting from zero, as after an unexpected
closure following a successful handshake), the client is `closed`, exactly
one `"exceeded maximum reconnect attempts"` error event has been emitted —
none during the earlier attempts — and no further reconnection timer is
pending or scheduled. -/
theorem reconnect_exhaustion (st0 : St) (hs : st0.socket = false)
    (hc : st0.reconnectAttemptsMade = 0) :
    (failRun st0 (st0.cfg.reconnectAttempts + 1)).connectionState
      = ConnState.closed ∧
    exhaustCount (failRun st0 (st0.cfg.reconnectAttempts + 1))
      = exhaustCount st0 + 1 ∧
    (∀ n, n ≤ st0.cfg.reconnectAttempts →
      exhaustCount (failRun st0 n) = exhaustCount st0) ∧
    (failRun st0 (st0.cfg.reconnectAttempts + 1)).timerPending = false ∧
    (failRun st0 (st0.cfg.reconnectAttempts + 1)).scheduledReconnects
      = st0.scheduledReconnects + st0.cfg.reconnectAttempts := by
  obtain ⟨i1, i2, i3, i4, i5⟩ :=
    failRun_inv st0 hs hc st0.cfg.reconnectAttempts le_rfl
  obtain ⟨f1, f2, f3, f4, f5, f6⟩ :=
    fire_proj (failRun st0 st0.cfg.reconnectAttempts) i1
  have hx : (failRun st0 st0.cfg.reconnectAttempts).cfg.reconnectAttempts
      < (failRun st0 st0.cfg.reconnectAttempts).reconnectAttemptsMade + 1 := by
    rw [i2, i3]
    exact Nat.lt_succ_self _
  obtain ⟨g1, g2, g3⟩ := f5 hx
  refine ⟨?_, ?_, ?_, ?_, ?_⟩
  · simpa [failRun] using f1
  · simpa [failRun, i4] using g1
  · intro n hn
    exact (failRun_inv st0 hs hc n hn).2.2.2.1
  · simpa [failRun] using g2
  · simp only [failRun]
    rw [g3, i5]

/-- Concrete post-closure state for the C1 witness: retry budget of one
attempt, counter at zero, socket released. -/
def stC1 : St :=
  { initSt { defaultCfg with reconnectAttempts := 1 } with
      connectionState := ConnState.connected
      timerPending := true
      reconnectTimeoutSet := true
      scheduledReconnects := 1 }

/-- Witness for C1: with a budget of one retry, two consecutive failed
attempts close the client, emit the exhaustion error exactly once and
schedule exactly one further timer (after the first failure only). -/
theorem reconnect_exhaustion_witness :
    (failRun stC1 (stC1.cfg.reconnectAttempts + 1)).connectionState
      = ConnState.closed ∧
    exhaustCount (failRun stC1 (stC1.cfg.reconnectAttempts + 1))
      = exhaustCount stC1 + 1 ∧
    (∀ n, n ≤ stC1.cfg.reconnectAttempts →
      exhaustCount (failRun stC1 n) = exhaustCount stC1) ∧
    (failRun stC1 (stC1.cfg.reconnectAttempts + 1)).timerPending = false ∧
    (failRun stC1 (stC1.cfg.reconnectAttempts + 1)).scheduledReconnects
      = stC1.scheduledReconnects + stC1.cfg.reconnectAttempts :=
  reconnect_exhaustion stC1 rfl rfl

/-- A connected client owning a live socket (the normal connected
configuration), used as counterexample state for C6. -/
def stC6 : St :=
  { initSt defaultCfg with
      connectionState := ConnState.connected
      socket := true }

/-- C6 counterexample: a `connect()` call made while `connected` with a
transport handle present rejects with the invalid-state error, not with the
already-connected error, although a transport handle exists — the state
check takes precedence. -/
theorem connect_guard_precedence_cex :
    stC6.socket = true ∧
    (connectStart stC6).2 = ConnectOutcome.errInvalidState ConnState.connected ∧
    (connectStart stC6).2 ≠ ConnectOutcome.errSocketExists := by
  refine ⟨rfl, rfl, ?_⟩
  decide

/-- C6 amended: `connect(url)` rejects with an invalid-state error whenever
the state is not `new`, `closed` or `reconnecting` (regardless of the
socket); it rejects with an already-connected error when the state is one
of those three and a transport handle exists; in all other cases it
proceeds: the pending reconnect timer is cancelled and the state becomes
`connecting`. -/
theorem connect_guard (st : St) :
    (¬ (st.connectionState = ConnState.new ∨
        st.connectionState = ConnState.closed ∨
        st.connectionState = ConnState.reconnecting) →
      (connectStart st).2 = ConnectOutcome.errInvalidState st.connectionState ∧
      (connectStart st).1 = st) ∧
    ((st.connectionState = ConnState.new ∨
      st.connectionState = ConnState.closed ∨
      st.connectionState = ConnState.reconnecting) → st.socket = true →
      (connectStart st).2 = ConnectOutcome.errSocketExists ∧
      (connectStart st).1 = st) ∧
    ((st.connectionState = ConnState.new ∨
      st.connectionState = ConnState.closed ∨
      st.connectionState = ConnState.reconnecting) → st.socket = false →
      (connectStart st).2 = ConnectOutcome.opened ∧
      (connectStart st).1.connectionState = ConnState.connecting ∧
      (connectStart st).1.reconnectTimeoutSet = false) := by
  refine ⟨fun h => ?_, fun h hsock => ?_, fun h hsock => ?_⟩
  · simp [connectStart, h]
  · simp [connectStart, h, hsock]
  · unfold connectStart
    simp only [if_neg (not_not_intro h), hsock, Bool.false_eq_true, if_false]
    by_cases ht : st.reconnectTimeoutSet <;> simp [ht]

/-- Witness for C6 (amended): the three guard branches at concrete
states — invalid state while `connecting`, socket present while `closed`,
and a clean `closed` state proceeding to `connecting`. -/
theorem connect_guard_witness :
    ((connectStart { initSt defaultCfg with
        connectionState := ConnState.connecting }).2
      = ConnectOutcome.errInvalidState ConnState.connecting) ∧
    ((connectStart { initSt defaultCfg with
        connectionState := ConnState.closed, socket := true }).2
      = ConnectOutcome.errSocketExists) ∧
    ((connectStart { initSt defaultCfg with
        connectionState := ConnState.closed }).2 = ConnectOutcome.opened ∧
     (connectStart { initSt defaultCfg with
        connectionState := ConnState.closed }).1.connectionState
      = ConnState.connecting) := by
  refine ⟨?_, ?_, ?_, ?_⟩
  · exact ((connect_guard { initSt defaultCfg with
      connectionState := ConnState.connecting }).1 (by decide)).1
  · exact ((connect_guard { initSt defaultCfg with
      connectionState := ConnState.closed, socket := true }).2.1
      (by decide) rfl).1
  · exact ((connect_guard { initSt defaultCfg with
      connectionState := ConnState.closed }).2.2 (by decide) rfl).1
  · exact ((connect_guard { initSt defaultCfg with
      connectionState := ConnState.closed }).2.2 (by decide) rfl).2.1

/-- A welcome frame whose identity string is empty, for the C5
counterexample. -/
def vWelcomeEmptyId : JVal :=
  .jobj [("cmd", .jstr "welcome"), ("data", .jobj [("id", .jstr "")])]

/-- C5 counterexample: the first frame carries command `welcome` with an
empty identity string, yet the handshake resolves and the client reaches
`connected` with the empty identity — no protocol violation, no close with
code 1003, no rejection. -/
theorem welcome_empty_identity_accepted_cex :
    (handleMessage (initSt defaultCfg) "wss://server"
        (.parsed vWelcomeEmptyId)).2 = HandshakeResult.resolved ∧
    (handleMessage (initSt defaultCfg) "wss://server"
        (.parsed vWelcomeEmptyId)).1.connectionState = ConnState.connected ∧
    (handleMessage (initSt defaultCfg) "wss://server"
        (.parsed vWelcomeEmptyId)).1.clientId = some (JVal.jstr "") :=
  ⟨rfl, rfl, rfl⟩

/-- C5 amended: the attempt succeeds exactly on a first frame whose parsed
object carries command `"welcome"` and a destructurable `data` payload,
with whatever `data.id` holds (the identity string is never validated —
absent or empty identities are accepted); a frame whose command is not
`"welcome"` is a protocol violation that closes the socket with code 1003
and rejects the connect awaitable. -/
theorem handshake_welcome_only (st : St) (url : String) (v d : JVal) :
    (getField v "cmd" = some (.jstr "welcome") →
      getField v "data" = some d → destructurable d = true →
      (handleMessage st url (.parsed v)).2 = HandshakeResult.resolved ∧
      (handleMessage st url (.parsed v)).1.connectionState
        = ConnState.connected ∧
      (handleMessage st url (.parsed v)).1.clientId = getField d "id") ∧
    (getField v "cmd" ≠ some (.jstr "welcome") →
      (handleMessage st url (.parsed v)).2
        = HandshakeResult.rejected 1003 "expected welcome message" ∧
      (handleMessage st url (.parsed v)).1.connectionState
        = ConnState.closed) := by
  constructor
  · intro h1 h2 h3
    simp [handleMessage, h1, h2, h3, handleOpen]
  · intro h
    have hred :
        handleMessage st url (.parsed v)
          = ((setConnectionState st ConnState.closed).1,
             .rejected 1003 "expected welcome message") := by
      cases hc : getField v "cmd" with
      | none => simp [handleMessage, hc]
      | some jv =>
          cases jv with
          | jstr s =>
              by_cases hsw : s = "welcome"
              · exact absurd (by rw [hc, hsw]) h
              · simp [handleMessage, hc, hsw]
          | jnull => simp [handleMessage, hc]
          | jbool b => simp [handleMessage, hc]
          | jnum n => simp [handleMessage, hc]
          | jobj fs => simp [handleMessage, hc]
          | jarr es => simp [handleMessage, hc]
    rw [hred]
    exact ⟨rfl, scs_connectionState st ConnState.closed⟩

/-- Witness for C5 (amended): a plain welcome frame with identity `abc`
resolves into `connected`, and a frame with a different command is closed
with 1003. -/
theorem handshake_welcome_only_witness :
    ((handleMessage (initSt defaultCfg) "wss://a"
        (.parsed (.jobj [("cmd", .jstr "welcome"),
          ("data", .jobj [("id", .jstr "abc")])]))).2
      = HandshakeResult.resolved ∧
     (handleMessage (initSt defaultCfg) "wss://a"
        (.parsed (.jobj [("cmd", .jstr "welcome"),
          ("data", .jobj [("id", .jstr "abc")])]))).1.connectionState
      = ConnState.connected ∧
     (handleMessage (initSt defaultCfg) "wss://a"
        (.parsed (.jobj [("cmd", .jstr "welcome"),
          ("data", .jobj [("id", .jstr "abc")])]))).1.clientId
      = getField (.jobj [("id", .jstr "abc")]) "id") ∧
    (handleMessage (initSt defaultCfg) "wss://a"
        (.parsed (.jobj [("cmd", .jstr "hello")]))).2
      = HandshakeResult.rejected 1003 "expected welcome message" := by
  constructor
  · exact (handshake_welcome_only (initSt defaultCfg) "wss://a"
      (.jobj [("cmd", .jstr "welcome"), ("data", .jobj [("id", .jstr "abc")])])
      (.jobj [("id", .jstr "abc")])).1 rfl rfl rfl
  · exact ((handshake_welcome_only (initSt defaultCfg) "wss://a"
      (.jobj [("cmd", .jstr "hello")]) JVal.jnull).2
      (by intro hco; simp [getField, lookupField] at hco)).1

/-- A rejection response without a `data` payload, for the C8
counterexample. -/
def respNoData : ServerResponse := { id := "r2", ok := false, data := none }

/-- C8 counterexample: a server response with `ok` false but no `data`
payload makes both send operations resolve normally — no remote-rejected
error is raised. -/
theorem ok_false_without_data_resolves_cex :
    respNoData.ok = false ∧
    sendICECandidateOutcome respNoData = SendOutcome.okDone ∧
    isRejected (sendICECandidateOutcome respNoData) = false ∧
    sendDescriptionOutcome "offer" respNoData = SendOutcome.okDone := by
  decide

/-- C8 amended: for every `sendDescription` (with a supported description
type) and `sendICECandidate` call whose server response has `ok` false and
carries a `data` payload, the call rejects with an error whose message is
the server-supplied message text; with `ok` false and no `data` payload the
call resolves normally. -/
theorem remote_rejected_with_data (t : String) (resp : ServerResponse)
    (m : String) (hok : resp.ok = false) :
    (resp.data = some ⟨m⟩ →
      ((t = "offer" ∨ t = "answer") →
        sendDescriptionOutcome t resp = SendOutcome.rejectedWith m) ∧
      sendICECandidateOutcome resp = SendOutcome.rejectedWith m) ∧
    (resp.data = none →
      sendICECandidateOutcome resp = SendOutcome.okDone) := by
  constructor
  · intro hd
    constructor
    · intro htype
      unfold sendDescriptionOutcome
      simp [htype, hok, hd]
    · unfold sendICECandidateOutcome
      simp [hok, hd]
  · intro hd
    unfold sendICECandidateOutcome
    simp [hok, hd]

/-- Concrete rejection for the C8 witness. -/
def respBusy : ServerResponse := { id := "r1", ok := false, data := some ⟨"busy"⟩ }

/-- Witness for C8 (amended): an `ok:false` response carrying message
`busy` rejects both operations with `busy`. -/
theorem remote_rejected_with_data_witness :
    sendDescriptionOutcome "offer" respBusy = SendOutcome.rejectedWith "busy" ∧
    sendICECandidateOutcome respBusy = SendOutcome.rejectedWith "busy" := by
  obtain ⟨h1, _⟩ := remote_rejected_with_data "offer" respBusy "busy" rfl
  exact ⟨(h1 rfl).1 (Or.inl rfl), (h1 rfl).2⟩

/-- A connected client with `reconnectOnClose` enabled, for the C2
counterexample. -/
def stC2 : St :=
  { initSt { defaultCfg with reconnectOnClose := true } with
      connectionState := ConnState.connected
      socket := true }

/-- C2 counterexample: an explicit `close()` call on a connected client
(whose state remains `connected` — the source never enters `closing`)
causes a transport closure whose handler schedules a reconnection attempt
because `reconnectOnClose` is true: explicit closure is not distinguished
from unexpected closure. -/
theorem close_schedules_reconnect_cex :
    (closeCall stC2).1.connectionState = ConnState.connected ∧
    (closeCall stC2).1.connectionState ≠ ConnState.closing ∧
    (handleCloseEvent (closeCall stC2).1).scheduledReconnects = 1 ∧
    (handleCloseEvent (closeCall stC2).1).timerPending = true := by
  refine ⟨rfl, ?_, rfl, rfl⟩
  decide

/-- C2 amended: the close handler does not distinguish closures caused by
an explicit `close()` call — `close()` mutates no field of the client (in
particular the state never becomes `closing`), and the subsequent transport
closure schedules a reconnection attempt exactly when `reconnectOnClose`
is true or the session had a transport error and `reconnectOnError` is
true, the same policy as for an unexpected closure. -/
theorem close_does_not_suppress_reconnect (st : St) (hs : st.socket = true) :
    (closeCall st).1 = st ∧
    (handleCloseEvent (closeCall st).1).scheduledReconnects
      = (if st.cfg.reconnectOnClose || (st.hadError && st.cfg.reconnectOnError)
         then st.scheduledReconnects + 1 else st.scheduledReconnects) := by
  have h1 : (closeCall st).1 = st := by
    unfold closeCall
    simp [hs]
  refine ⟨h1, ?_⟩
  rw [h1]
  exact (close_policy_iff st hs).1

/-- Witness for C2 (amended): on the concrete connected client with
`reconnectOnClose` enabled, `close()` changes nothing and the resulting
closure schedules a retry. -/
theorem close_does_not_suppress_reconnect_witness :
    (closeCall stC2).1 = stC2 ∧
    (handleCloseEvent (closeCall stC2).1).scheduledReconnects
      = (if stC2.cfg.reconnectOnClose
            || (stC2.hadError && stC2.cfg.reconnectOnError)
         then stC2.scheduledReconnects + 1 else stC2.scheduledReconnects) :=
  close_does_not_suppress_reconnect stC2 rfl

/-- C10: for every `close()` call made while a transport handle exists the
returned awaitable never settles — the registered close listener is the
arrow function returning the resolver without invoking it — and only a
`close()` call made with no transport present resolves (immediately). -/
theorem close_promise_never_settles (st : St) :
    (st.socket = true →
      (closeCall st).2 = CloseOutcome.pendingWith closeListenerBody ∧
      invokes closeListenerBody = [] ∧
      runCloseListener closeListenerBody false = false) ∧
    (st.socket = false →
      (closeCall st).2 = CloseOutcome.immediateResolve) := by
  constructor
  · intro h
    unfold closeCall
    simp [h, closeListenerBody, invokes, runCloseListener]
  · intro h
    unfold closeCall
    simp [h]

/-- A connected client with a live socket, for the C10 witness. -/
def stOpen : St :=
  { initSt defaultCfg with
      connectionState := ConnState.connected
      socket := true }

/-- Witness for C10: with a socket the close promise stays pending even
after its listener runs; without a socket it resolves immediately. -/
theorem close_promise_never_settles_witness :
    ((closeCall stOpen).2 = CloseOutcome.pendingWith closeListenerBody ∧
     invokes closeListenerBody = [] ∧
     runCloseListener closeListenerBody false = false) ∧
    (closeCall (initSt defaultCfg)).2 = CloseOutcome.immediateResolve :=
  ⟨(close_promise_never_settles stOpen).1 rfl,
   (close_promise_never_settles (initSt defaultCfg)).2 rfl⟩

end SFConnect
